import Mathlib

/-!
# Gameplay simulation of the two-player volleyball game (`src/main.cpp`)

The game loop of `main` (lines 240-539) is embedded as pure functions on an
explicit `State` record that holds the loop's local variables.

Modelling conventions:

* `float` values are exact rationals (`ℚ`): every literal of the source
  (`0.6f`, `-1.7f`, ...) is the rational it denotes, rounding is not modelled.
* The `int` counters (`num_bounces`, `player1_score`, `player2_score`) are
  unbounded integers.  On every run from the initial state the scores stay in
  `0..10` and the bounce counter in `0..8`, far from the 32-bit limits.
* `scene.objects` is represented by the three objects the simulation moves
  (`player1`, `player2`, `ball`) and by the list `markers` of the positions of
  the spheres appended by `add_object` when a point is scored.
* An SDL event is reduced to the fields the loop reads: its type and, for a
  keyboard event, the key symbol.  `key.state == SDL_PRESSED` holds exactly
  for `SDL_KEYDOWN` events.
-/

namespace Volleyball

/-- A `glm::vec3`. -/
structure Vec3 where
  x : ℚ
  y : ℚ
  z : ℚ
deriving DecidableEq

/-- The local variables of `main` that the game loop reads and writes
(lines 207-213 and 240-258). -/
structure State where
  player1_position : Vec3
  player2_position : Vec3
  ball_position : Vec3
  player1_velocity : Vec3
  player2_velocity : Vec3
  ball_velocity : Vec3
  should_quit : Bool
  game_over : Bool
  new_level : Bool
  player1_left : Bool
  player1_right : Bool
  player1_jump : Bool
  player2_left : Bool
  player2_right : Bool
  player2_jump : Bool
  player1_getting_point : Bool
  num_bounces : Int
  player1_score : Int
  player2_score : Int
  markers : List Vec3
deriving DecidableEq

/-- Line 244: `float ball_gravity = -3.0f;` (never reassigned). -/
def ball_gravity : ℚ := -3

/-- Line 245: `float player_gravity = -2.5f;` (never reassigned). -/
def player_gravity : ℚ := -5 / 2

/-- The state on entry to the game loop (lines 207-213, 240-258). -/
def initial : State where
  player1_position := ⟨0, 3, 3 / 5⟩
  player2_position := ⟨0, -6, 3 / 5⟩
  ball_position := ⟨0, -17 / 10, 5⟩
  player1_velocity := ⟨0, 0, 0⟩
  player2_velocity := ⟨0, 0, 0⟩
  ball_velocity := ⟨0, 5, 0⟩
  should_quit := false
  game_over := false
  new_level := true
  player1_left := false
  player1_right := false
  player1_jump := false
  player2_left := false
  player2_right := false
  player2_jump := false
  player1_getting_point := false
  num_bounces := 0
  player1_score := 0
  player2_score := 0
  markers := []

/-! ## Input handling (lines 262-310) -/

/-- The key symbols the loop distinguishes; `other` is any other key. -/
inductive Keycode where
  | ESCAPE
  | w
  | a
  | d
  | UP
  | LEFT
  | RIGHT
  | other
deriving DecidableEq

/-- An SDL event as far as the loop inspects it. -/
inductive Event where
  | keydown (sym : Keycode)
  | keyup (sym : Keycode)
  | quit
  | mousebuttondown
  | other
deriving DecidableEq

/-- Lines 276-308: a keyboard event that is not an ESCAPE press; `pressed` is
`evt.key.state == SDL_PRESSED`. -/
def handleKey (sym : Keycode) (pressed : Bool) (s : State) : State :=
  if !s.new_level then
    match sym with
    | .w =>
      if !s.player1_jump && pressed then
        { s with player1_jump := true, player1_velocity.z := 5 / 2 }
      else s
    | .a =>
      let s := { s with player1_left := pressed }
      if s.player1_left then { s with player1_right := false } else s
    | .d =>
      let s := { s with player1_right := pressed }
      if s.player1_right then { s with player1_left := false } else s
    | .UP =>
      if !s.player2_jump && pressed then
        { s with player2_jump := true, player2_velocity.z := 5 / 2 }
      else s
    | .LEFT =>
      let s := { s with player2_left := pressed }
      if s.player2_right then { s with player2_left := false } else s
    | .RIGHT =>
      let s := { s with player2_right := pressed }
      if s.player2_right then { s with player2_left := false } else s
    | _ => s
  else s

/-- Lines 264-309: the body of the event loop for one polled event. -/
def handleEvent (evt : Event) (s : State) : State :=
  match evt with
  | .keydown .ESCAPE => { s with should_quit := true }
  | .quit => { s with should_quit := true }
  | .mousebuttondown =>
    if s.game_over then { s with should_quit := true } else { s with new_level := false }
  | .keydown sym => handleKey sym true s
  | .keyup sym => handleKey sym false s
  | .other => s

/-! ## Paddles (lines 322-374) -/

/-- Lines 323-330: gravity and landing of player 1. -/
def player1Vertical (elapsed : ℚ) (s : State) : State :=
  if s.player1_position.z > 3 / 5 then
    { s with player1_velocity.z := s.player1_velocity.z + player_gravity * elapsed }
  else if s.player1_velocity.z < 0 then
    { s with player1_velocity.z := 0, player1_jump := false }
  else s

/-- Lines 332-338: lateral velocity of player 1 from its move flags. -/
def player1Lateral (s : State) : State :=
  if s.player1_left then { s with player1_velocity.y := 4 }
  else if s.player1_right then { s with player1_velocity.y := -4 }
  else { s with player1_velocity.y := 0 }

/-- Lines 340-341: integration of player 1's position. -/
def player1Integrate (elapsed : ℚ) (s : State) : State :=
  { s with
    player1_position.y := s.player1_position.y + s.player1_velocity.y * elapsed,
    player1_position.z := s.player1_position.z + s.player1_velocity.z * elapsed }

/-- Lines 342-347: the two lateral clamps of player 1. -/
def player1Clamp (s : State) : State :=
  let s := if s.player1_position.y ≤ -2 / 5 then { s with player1_position.y := -2 / 5 } else s
  if s.player1_position.y ≥ 77 / 10 then { s with player1_position.y := 77 / 10 } else s

/-- Lines 322-347: the whole player 1 block. -/
def updatePlayer1 (elapsed : ℚ) (s : State) : State :=
  player1Clamp (player1Integrate elapsed (player1Lateral (player1Vertical elapsed s)))

/-- Lines 350-357: gravity and landing of player 2. -/
def player2Vertical (elapsed : ℚ) (s : State) : State :=
  if s.player2_position.z > 3 / 5 then
    { s with player2_velocity.z := s.player2_velocity.z + player_gravity * elapsed }
  else if s.player2_velocity.z < 0 then
    { s with player2_velocity.z := 0, player2_jump := false }
  else s

/-- Lines 359-365: lateral velocity of player 2 from its move flags. -/
def player2Lateral (s : State) : State :=
  if s.player2_left then { s with player2_velocity.y := 4 }
  else if s.player2_right then { s with player2_velocity.y := -4 }
  else { s with player2_velocity.y := 0 }

/-- Lines 367-368: integration of player 2's position. -/
def player2Integrate (elapsed : ℚ) (s : State) : State :=
  { s with
    player2_position.y := s.player2_position.y + s.player2_velocity.y * elapsed,
    player2_position.z := s.player2_position.z + s.player2_velocity.z * elapsed }

/-- Lines 369-374: the two lateral clamps of player 2. -/
def player2Clamp (s : State) : State :=
  let s := if s.player2_position.y ≥ -3 then { s with player2_position.y := -3 } else s
  if s.player2_position.y ≤ -11 then { s with player2_position.y := -11 } else s

/-- Lines 349-374: the whole player 2 block. -/
def updatePlayer2 (elapsed : ℚ) (s : State) : State :=
  player2Clamp (player2Integrate elapsed (player2Lateral (player2Vertical elapsed s)))

/-! ## Ball (lines 376-397) -/

/-- Lines 377-387: apex cap, gravity and floor bounce of the ball. -/
def ballVertical (elapsed : ℚ) (s : State) : State :=
  let s := if s.ball_position.z ≥ 5 then
      { s with ball_velocity.z := 0, ball_position.z := 5 }
    else s
  if s.ball_position.z ≥ 2 / 5 then
    { s with ball_velocity.z := s.ball_velocity.z + ball_gravity * elapsed }
  else
    { s with
      num_bounces := s.num_bounces + 1,
      ball_velocity.z := s.ball_velocity.z * -1,
      ball_position.z := 2 / 5 }

/-- Lines 390-397: the two wall bounces of the ball. -/
def ballWalls (s : State) : State :=
  let s := if s.ball_position.y ≥ 81 / 10 then
      { s with ball_velocity.y := s.ball_velocity.y * -1, ball_position.y := 81 / 10 }
    else s
  if s.ball_position.y ≤ -57 / 5 then
    { s with ball_velocity.y := s.ball_velocity.y * -1, ball_position.y := -57 / 5 }
  else s

/-- Lines 376-397: the cap/floor and wall stage of the ball. -/
def ballClamp (elapsed : ℚ) (s : State) : State :=
  ballWalls (ballVertical elapsed s)

/-! ## Ball against paddles (lines 399-467) -/

/-- Lines 400-403: `center_difference1`. -/
def center_difference1 (s : State) : Vec3 :=
  ⟨0, s.ball_position.y - s.player1_position.y, s.ball_position.z - s.player1_position.z⟩

/-- Lines 404-407: `center_difference2`. -/
def center_difference2 (s : State) : Vec3 :=
  ⟨0, s.ball_position.y - s.player2_position.y, s.ball_position.z - s.player2_position.z⟩

/-- The detection test of lines 409-410 and 439-440. -/
def overlaps (d : Vec3) : Prop :=
  -1 < d.y ∧ d.y < 1 ∧ -1 < d.z ∧ d.z < 1

instance (d : Vec3) : Decidable (overlaps d) := by
  unfold overlaps
  infer_instance

/-- Lines 409-437: collision of the ball with player 1, for the offset `d`
computed before any resolution. -/
def collidePlayer1 (d : Vec3) (s : State) : State :=
  if overlaps d then
    let s := { s with num_bounces := s.num_bounces + 1 }
    if d.y ≤ 0 ∧ d.z ≤ -d.y ∧ d.z ≥ d.y then
      { s with ball_velocity.y := s.ball_velocity.y * -1,
               ball_position.y := s.player1_position.y - 1 }
    else if d.y > 0 ∧ d.z ≤ d.y ∧ d.z ≥ -d.y then
      { s with ball_velocity.y := s.ball_velocity.y * -1,
               ball_position.y := s.player1_position.y + 1 }
    else if d.z ≤ 0 ∧ d.y ≤ -d.z ∧ d.y ≥ d.z then
      { s with ball_velocity.z := s.ball_velocity.z * -1,
               ball_position.z := s.player1_position.z - 1 }
    else if d.z > 0 ∧ d.y ≤ d.z ∧ d.y ≥ -d.z then
      { s with ball_velocity.z := s.ball_velocity.z * -1,
               ball_position.z := s.player1_position.z + 1 }
    else s
  else s

/-- Lines 439-467: collision of the ball with player 2, for the offset `d`
computed before any resolution. -/
def collidePlayer2 (d : Vec3) (s : State) : State :=
  if overlaps d then
    let s := { s with num_bounces := s.num_bounces + 1 }
    if d.y ≤ 0 ∧ d.z ≤ -d.y ∧ d.z ≥ d.y then
      { s with ball_velocity.y := s.ball_velocity.y * -1,
               ball_position.y := s.player2_position.y - 1 }
    else if d.y > 0 ∧ d.z ≤ d.y ∧ d.z ≥ -d.y then
      { s with ball_velocity.y := s.ball_velocity.y * -1,
               ball_position.y := s.player2_position.y + 1 }
    else if d.z ≤ 0 ∧ d.y ≤ -d.z ∧ d.y ≥ d.z then
      { s with ball_velocity.z := s.ball_velocity.z * -1,
               ball_position.z := s.player2_position.z - 1 }
    else if d.z > 0 ∧ d.y ≤ d.z ∧ d.y ≥ -d.z then
      { s with ball_velocity.z := s.ball_velocity.z * -1,
               ball_position.z := s.player2_position.z + 1 }
    else s
  else s

/-- Lines 399-467: both offsets are taken first, then both collisions run. -/
def ballPlayers (s : State) : State :=
  let d1 := center_difference1 s
  let d2 := center_difference2 s
  collidePlayer2 d2 (collidePlayer1 d1 s)

/-! ## Net, end of point, ball integration (lines 469-521) -/

/-- Lines 470-474: the net rule. -/
def ballNet (s : State) : State :=
  if s.ball_position.z ≤ 16 / 5 ∧ s.ball_position.y ≤ -13 / 10 ∧ s.ball_position.y ≥ -21 / 10 then
    { s with num_bounces := 5 }
  else s

/-- Lines 477-510: the reset performed when the point ends. -/
def endPoint (s : State) : State :=
  let s := { s with
    new_level := true,
    num_bounces := 0,
    ball_position := ⟨0, -17 / 10, 5⟩,
    player1_position := ⟨0, 3, 3 / 5⟩,
    player2_position := ⟨0, -6, 3 / 5⟩,
    player1_velocity := ⟨0, 0, 0⟩,
    player2_velocity := ⟨0, 0, 0⟩,
    player1_left := false,
    player1_right := false,
    player1_jump := false,
    player2_left := false,
    player2_right := false,
    player2_jump := false }
  if s.player1_getting_point then
    let s := { s with player1_score := s.player1_score + 1, ball_velocity := ⟨0, -5, 0⟩ }
    let s := { s with markers := s.markers ++ [⟨0, 8 - (s.player1_score : ℚ) * (1 / 2), 15 / 2⟩] }
    if s.player1_score = 10 then
      { s with game_over := true, player1_position.z := 5 }
    else s
  else
    let s := { s with player2_score := s.player2_score + 1, ball_velocity := ⟨0, 5, 0⟩ }
    let s := { s with markers := s.markers ++ [⟨0, -123 / 10 + (s.player2_score : ℚ) * (1 / 2), 15 / 2⟩] }
    if s.player2_score = 10 then
      { s with game_over := true, player2_position.z := 5 }
    else s

/-- Lines 513-520: integration of the ball and the midline-crossing rule. -/
def moveBall (elapsed : ℚ) (s : State) : State :=
  let s := { s with
    ball_position.y := s.ball_position.y + s.ball_velocity.y * elapsed,
    ball_position.z := s.ball_position.z + s.ball_velocity.z * elapsed }
  let player1_getting_point_prev := s.player1_getting_point
  let s := { s with player1_getting_point := decide (s.ball_position.y ≤ -17 / 10) }
  if player1_getting_point_prev != s.player1_getting_point then
    { s with num_bounces := 0 }
  else s

/-- Lines 322-467: the state at the net check of line 470. -/
def beforeNet (elapsed : ℚ) (s : State) : State :=
  ballPlayers (ballClamp elapsed (updatePlayer2 elapsed (updatePlayer1 elapsed s)))

/-- Lines 322-474: the state at the end-of-point check `num_bounces >= 5` of
line 476. -/
def beforeCheck (elapsed : ℚ) (s : State) : State :=
  ballNet (beforeNet elapsed s)

/-- Lines 321-521: the body of `if (!new_level)`, one update step while
Playing. -/
def update (elapsed : ℚ) (s : State) : State :=
  let t := beforeCheck elapsed s
  if t.num_bounces ≥ 5 then endPoint t else moveBall elapsed t

/-! ## The loop -/

/-- Something the loop does to the state: handle one polled event, or run the
update block with the elapsed time of the frame. -/
inductive Action where
  | input (evt : Event)
  | tick (elapsed : ℚ)

/-- One action.  The update block runs only when the loop has not been left
(line 311) and the game is Playing (line 320). -/
def step (s : State) : Action → State
  | .input evt => handleEvent evt s
  | .tick elapsed => if s.should_quit then s else if !s.new_level then update elapsed s else s

/-- A sequence of actions, in order. -/
def run (s : State) (actions : List Action) : State :=
  actions.foldl step s

/-! ## Auxiliary predicates -/

/-- The state `t` differs from `s` at most in player 1's position, velocity and
jump flag. -/
def Player1Only (s t : State) : Prop :=
  ∃ p v j, t = { s with player1_position := p, player1_velocity := v, player1_jump := j }

/-- The state `t` differs from `s` at most in player 2's position, velocity and
jump flag. -/
def Player2Only (s t : State) : Prop :=
  ∃ p v j, t = { s with player2_position := p, player2_velocity := v, player2_jump := j }

/-- The state `t` differs from `s` at most in the ball's position and velocity
and in the bounce counter. -/
def BallOnly (s t : State) : Prop :=
  ∃ p v n, t = { s with ball_position := p, ball_velocity := v, num_bounces := n }

/-- The state `t` differs from `s` at most in the positions, velocities and
jump flags of the paddles, the ball's position and velocity, and the bounce
counter. -/
def PhysicsOnly (s t : State) : Prop :=
  ∃ p1 v1 j1 p2 v2 j2 bp bv n, t =
    { s with
      player1_position := p1, player1_velocity := v1, player1_jump := j1,
      player2_position := p2, player2_velocity := v2, player2_jump := j2,
      ball_position := bp, ball_velocity := bv, num_bounces := n }

/-- The step ends the point: the end-of-point check of line 476 succeeds. -/
def endsPoint (elapsed : ℚ) (s : State) : Prop :=
  5 ≤ (beforeCheck elapsed s).num_bounces

instance (elapsed : ℚ) (s : State) : Decidable (endsPoint elapsed s) := by
  unfold endsPoint
  infer_instance

/-- The net footprint tested at lines 470-472. -/
def inNetFootprint (p : Vec3) : Prop :=
  p.z ≤ 16 / 5 ∧ p.y ≤ -13 / 10 ∧ p.y ≥ -21 / 10

instance (p : Vec3) : Decidable (inNetFootprint p) := by
  unfold inNetFootprint
  infer_instance

/-- A point is awarded between `s` and `t`: one score is one more, the other is
the same. -/
def pointAwarded (s t : State) : Prop :=
  (t.player1_score = s.player1_score + 1 ∧ t.player2_score = s.player2_score) ∨
    (t.player1_score = s.player1_score ∧ t.player2_score = s.player2_score + 1)

instance (s t : State) : Decidable (pointAwarded s t) := by
  unfold pointAwarded
  infer_instance

/-- A Playing state with the ball on the upper corner of the net footprint and
player 1 at its lateral minimum, 0.95 below the ball. -/
def netTopContact : State :=
  { initial with
    new_level := false,
    ball_position := ⟨0, -13 / 10, 16 / 5⟩,
    player1_position := ⟨0, -2 / 5, 9 / 4⟩ }

/-- The scenario of the specification: Playing, bounce counter 4, ball at
height 3.0 and lateral position -1.7. -/
def netScenario : State :=
  { initial with
    new_level := false,
    num_bounces := 4,
    ball_position := ⟨0, -17 / 10, 3⟩ }

/-- A sequence of actions that plays one point, won by player 2: the start
click, two frames of 1.1 s and one frame of 0 s. -/
def pointCycle : List Action :=
  [.input .mousebuttondown, .tick (11 / 10), .tick (11 / 10), .tick 0]

/-- Ten points in a row for player 2. -/
def tenPoints : List Action :=
  (List.replicate 10 pointCycle).flatten

/-- The score invariant of the loop. -/
def ScoreInv (s : State) : Prop :=
  (0 ≤ s.player1_score ∧ s.player1_score ≤ 10) ∧
    (0 ≤ s.player2_score ∧ s.player2_score ≤ 10) ∧
    (s.game_over = true ↔ (s.player1_score = 10 ∨ s.player2_score = 10)) ∧
    (s.game_over = true → s.new_level = true)

instance (s : State) : Decidable (ScoreInv s) := by
  unfold ScoreInv
  infer_instance

/-- Nothing of the game has changed between `s` and `t`, and `t` is paused with
the game over. -/
def Frozen (s t : State) : Prop :=
  t.player1_score = s.player1_score ∧ t.player2_score = s.player2_score ∧
    t.new_level = true ∧ t.game_over = true ∧
    t.player1_position = s.player1_position ∧ t.player2_position = s.player2_position ∧
    t.ball_position = s.ball_position

instance (s t : State) : Decidable (Frozen s t) := by
  unfold Frozen
  infer_instance

/-- The Playing state one frame before the first point of `pointCycle`. -/
def beforePoint : State :=
  run initial [.input .mousebuttondown, .tick (11 / 10), .tick (11 / 10)]

/-- Both paddles are inside their lateral ranges. -/
def lateralInRange (s : State) : Prop :=
  (-2 / 5 ≤ s.player1_position.y ∧ s.player1_position.y ≤ 77 / 10) ∧
    (-11 ≤ s.player2_position.y ∧ s.player2_position.y ≤ -3)

/-- The court box of the ball. -/
def inCourt (p : Vec3) : Prop :=
  (2 / 5 ≤ p.z ∧ p.z ≤ 5) ∧ (-57 / 5 ≤ p.y ∧ p.y ≤ 81 / 10)

instance (p : Vec3) : Decidable (inCourt p) := by
  unfold inCourt
  infer_instance

/-- The scenario of the specification: Playing, player 1 at its lateral minimum
with the left flag set. -/
def paddleScenario : State :=
  { initial with
    new_level := false,
    player1_position := ⟨0, -2 / 5, 3 / 5⟩,
    player1_left := true }

/-- The Playing state right after the click that starts the match. -/
def started : State :=
  run initial [.input .mousebuttondown]

/-- The four contact sides of the collision resolution. -/
inductive Side where
  | right
  | left
  | bottom
  | top
deriving DecidableEq

/-- The side classification in the words of the specification (§4.2): the
first, in the order right, left, bottom, top, whose diamond condition holds. -/
def specSide (dy dz : ℚ) : Option Side :=
  if dy ≤ 0 ∧ |dz| ≤ -dy then some .right
  else if dy > 0 ∧ |dz| ≤ dy then some .left
  else if dz ≤ 0 ∧ |dy| ≤ -dz then some .bottom
  else if dz > 0 ∧ |dy| ≤ dz then some .top
  else none

/-- The body of one side branch of lines 412-436 and 442-466, for a paddle at
`paddle`: flip one velocity component and snap the ball to the paddle's side. -/
def bounce (side : Side) (paddle : Vec3) (s : State) : State :=
  match side with
  | .right =>
    { s with ball_velocity.y := s.ball_velocity.y * -1, ball_position.y := paddle.y - 1 }
  | .left =>
    { s with ball_velocity.y := s.ball_velocity.y * -1, ball_position.y := paddle.y + 1 }
  | .bottom =>
    { s with ball_velocity.z := s.ball_velocity.z * -1, ball_position.z := paddle.z - 1 }
  | .top =>
    { s with ball_velocity.z := s.ball_velocity.z * -1, ball_position.z := paddle.z + 1 }

/-- Lines 411 and 441: `num_bounces++`. -/
def countBounce (s : State) : State :=
  { s with num_bounces := s.num_bounces + 1 }

instance (s : State) : Decidable (lateralInRange s) := by
  unfold lateralInRange
  infer_instance

/-- The Playing state after the start click, a jump of player 1 (key `w`) and
seven frames of 0.3 s: player 1 is falling, at height 1.125 with vertical
velocity -2.0. -/
def beforeLanding : State :=
  run initial
    ([.input .mousebuttondown, .input (.keydown .w)] ++ List.replicate 7 (.tick (3 / 10)))

/-- The Playing state after the start click and a press of player 2's RIGHT
key. -/
def rightHeld : State :=
  run initial [.input .mousebuttondown, .input (.keydown .RIGHT)]

/-- A Playing state, not reachable, in which both paddles are within the
detection distance of the ball: player 1 at lateral position 0, player 2 at
-0.5, the ball between them at -0.25 and 0.4 above both. -/
def bothPaddlesClose : State :=
  { initial with
    new_level := false,
    player1_position := ⟨0, 0, 3 / 5⟩,
    player2_position := ⟨0, -1 / 2, 3 / 5⟩,
    ball_position := ⟨0, -1 / 4, 1⟩ }

/-- The Playing state after the start click and the first frame of
`pointCycle`: the ball is 0.8 beside and 0.77 above player 1. -/
def beforeContact : State :=
  run initial [.input .mousebuttondown, .tick (11 / 10)]

/-! ## Frame lemmas: what each block leaves untouched -/

theorem Player1Only.trans_p1 {s t u : State} (h1 : Player1Only s t) (h2 : Player1Only t u) :
    Player1Only s u := by
  obtain ⟨p, v, j, rfl⟩ := h1
  obtain ⟨p', v', j', rfl⟩ := h2
  exact ⟨_, _, _, rfl⟩

theorem Player2Only.trans_p2 {s t u : State} (h1 : Player2Only s t) (h2 : Player2Only t u) :
    Player2Only s u := by
  obtain ⟨p, v, j, rfl⟩ := h1
  obtain ⟨p', v', j', rfl⟩ := h2
  exact ⟨_, _, _, rfl⟩

theorem BallOnly.trans_ball {s t u : State} (h1 : BallOnly s t) (h2 : BallOnly t u) :
    BallOnly s u := by
  obtain ⟨p, v, n, rfl⟩ := h1
  obtain ⟨p', v', n', rfl⟩ := h2
  exact ⟨_, _, _, rfl⟩

theorem PhysicsOnly.trans_phys {s t u : State} (h1 : PhysicsOnly s t) (h2 : PhysicsOnly t u) :
    PhysicsOnly s u := by
  obtain ⟨p1, v1, j1, p2, v2, j2, bp, bv, n, rfl⟩ := h1
  obtain ⟨p1', v1', j1', p2', v2', j2', bp', bv', n', rfl⟩ := h2
  exact ⟨_, _, _, _, _, _, _, _, _, rfl⟩

theorem Player1Only.physics_p1 {s t : State} (h : Player1Only s t) : PhysicsOnly s t := by
  obtain ⟨p, v, j, rfl⟩ := h
  exact ⟨_, _, _, _, _, _, _, _, _, rfl⟩

theorem Player2Only.physics_p2 {s t : State} (h : Player2Only s t) : PhysicsOnly s t := by
  obtain ⟨p, v, j, rfl⟩ := h
  exact ⟨_, _, _, _, _, _, _, _, _, rfl⟩

theorem BallOnly.physics_ball {s t : State} (h : BallOnly s t) : PhysicsOnly s t := by
  obtain ⟨p, v, n, rfl⟩ := h
  exact ⟨_, _, _, _, _, _, _, _, _, rfl⟩

theorem player1Vertical_only (dt : ℚ) (s : State) : Player1Only s (player1Vertical dt s) := by
  simp only [player1Vertical]
  split_ifs <;> exact ⟨_, _, _, rfl⟩

theorem player1Lateral_only (s : State) : Player1Only s (player1Lateral s) := by
  simp only [player1Lateral]
  split_ifs <;> exact ⟨_, _, _, rfl⟩

theorem player1Integrate_only (dt : ℚ) (s : State) : Player1Only s (player1Integrate dt s) :=
  ⟨_, _, _, rfl⟩

theorem player1Clamp_only (s : State) : Player1Only s (player1Clamp s) := by
  simp only [player1Clamp]
  split_ifs <;> exact ⟨_, _, _, rfl⟩

theorem updatePlayer1_only (dt : ℚ) (s : State) : Player1Only s (updatePlayer1 dt s) :=
  (((player1Vertical_only dt s).trans_p1 (player1Lateral_only _)).trans_p1
    (player1Integrate_only dt _)).trans_p1 (player1Clamp_only _)

theorem player2Vertical_only (dt : ℚ) (s : State) : Player2Only s (player2Vertical dt s) := by
  simp only [player2Vertical]
  split_ifs <;> exact ⟨_, _, _, rfl⟩

theorem player2Lateral_only (s : State) : Player2Only s (player2Lateral s) := by
  simp only [player2Lateral]
  split_ifs <;> exact ⟨_, _, _, rfl⟩

theorem player2Integrate_only (dt : ℚ) (s : State) : Player2Only s (player2Integrate dt s) :=
  ⟨_, _, _, rfl⟩

theorem player2Clamp_only (s : State) : Player2Only s (player2Clamp s) := by
  simp only [player2Clamp]
  split_ifs <;> exact ⟨_, _, _, rfl⟩

theorem updatePlayer2_only (dt : ℚ) (s : State) : Player2Only s (updatePlayer2 dt s) :=
  (((player2Vertical_only dt s).trans_p2 (player2Lateral_only _)).trans_p2
    (player2Integrate_only dt _)).trans_p2 (player2Clamp_only _)

theorem ballVertical_only (dt : ℚ) (s : State) : BallOnly s (ballVertical dt s) := by
  simp only [ballVertical]
  split_ifs <;> exact ⟨_, _, _, rfl⟩

theorem ballWalls_only (s : State) : BallOnly s (ballWalls s) := by
  simp only [ballWalls]
  split_ifs <;> exact ⟨_, _, _, rfl⟩

theorem ballClamp_only (dt : ℚ) (s : State) : BallOnly s (ballClamp dt s) :=
  (ballVertical_only dt s).trans_ball (ballWalls_only _)

theorem collidePlayer1_only (d : Vec3) (s : State) : BallOnly s (collidePlayer1 d s) := by
  simp only [collidePlayer1]
  split_ifs <;> exact ⟨_, _, _, rfl⟩

theorem collidePlayer2_only (d : Vec3) (s : State) : BallOnly s (collidePlayer2 d s) := by
  simp only [collidePlayer2]
  split_ifs <;> exact ⟨_, _, _, rfl⟩

theorem ballPlayers_only (s : State) : BallOnly s (ballPlayers s) :=
  (collidePlayer1_only _ s).trans_ball (collidePlayer2_only _ _)

theorem ballNet_only (s : State) : BallOnly s (ballNet s) := by
  simp only [ballNet]
  split_ifs <;> exact ⟨_, _, _, rfl⟩

/-- The three ball blocks before the end-of-point check touch the ball only. -/
theorem ballBlocks_only (dt : ℚ) (s : State) :
    BallOnly s (ballNet (ballPlayers (ballClamp dt s))) :=
  ((ballClamp_only dt s).trans_ball (ballPlayers_only _)).trans_ball (ballNet_only _)

theorem beforeCheck_physics (dt : ℚ) (s : State) : PhysicsOnly s (beforeCheck dt s) :=
  ((updatePlayer1_only dt s).physics_p1.trans_phys (updatePlayer2_only dt _).physics_p2).trans_phys
    (ballBlocks_only dt _).physics_ball

theorem PhysicsOnly.game_over {s t : State} (h : PhysicsOnly s t) :
    t.game_over = s.game_over := by
  obtain ⟨p1, v1, j1, p2, v2, j2, bp, bv, n, rfl⟩ := h
  rfl

theorem PhysicsOnly.new_level {s t : State} (h : PhysicsOnly s t) :
    t.new_level = s.new_level := by
  obtain ⟨p1, v1, j1, p2, v2, j2, bp, bv, n, rfl⟩ := h
  rfl

theorem PhysicsOnly.should_quit {s t : State} (h : PhysicsOnly s t) :
    t.should_quit = s.should_quit := by
  obtain ⟨p1, v1, j1, p2, v2, j2, bp, bv, n, rfl⟩ := h
  rfl

theorem PhysicsOnly.player1_getting_point {s t : State} (h : PhysicsOnly s t) :
    t.player1_getting_point = s.player1_getting_point := by
  obtain ⟨p1, v1, j1, p2, v2, j2, bp, bv, n, rfl⟩ := h
  rfl

theorem PhysicsOnly.player1_score {s t : State} (h : PhysicsOnly s t) :
    t.player1_score = s.player1_score := by
  obtain ⟨p1, v1, j1, p2, v2, j2, bp, bv, n, rfl⟩ := h
  rfl

theorem PhysicsOnly.player2_score {s t : State} (h : PhysicsOnly s t) :
    t.player2_score = s.player2_score := by
  obtain ⟨p1, v1, j1, p2, v2, j2, bp, bv, n, rfl⟩ := h
  rfl

theorem Player1Only.ball_position_p1 {s t : State} (h : Player1Only s t) :
    t.ball_position = s.ball_position := by
  obtain ⟨p, v, j, rfl⟩ := h
  rfl

theorem Player1Only.num_bounces_p1 {s t : State} (h : Player1Only s t) :
    t.num_bounces = s.num_bounces := by
  obtain ⟨p, v, j, rfl⟩ := h
  rfl

theorem Player1Only.player2_position_p1 {s t : State} (h : Player1Only s t) :
    t.player2_position = s.player2_position := by
  obtain ⟨p, v, j, rfl⟩ := h
  rfl

theorem Player2Only.ball_position_p2 {s t : State} (h : Player2Only s t) :
    t.ball_position = s.ball_position := by
  obtain ⟨p, v, j, rfl⟩ := h
  rfl

theorem Player2Only.num_bounces_p2 {s t : State} (h : Player2Only s t) :
    t.num_bounces = s.num_bounces := by
  obtain ⟨p, v, j, rfl⟩ := h
  rfl

theorem Player2Only.player1_position_p2 {s t : State} (h : Player2Only s t) :
    t.player1_position = s.player1_position := by
  obtain ⟨p, v, j, rfl⟩ := h
  rfl

theorem BallOnly.player1_position_ball {s t : State} (h : BallOnly s t) :
    t.player1_position = s.player1_position := by
  obtain ⟨p, v, n, rfl⟩ := h
  rfl

theorem BallOnly.player2_position_ball {s t : State} (h : BallOnly s t) :
    t.player2_position = s.player2_position := by
  obtain ⟨p, v, n, rfl⟩ := h
  rfl

/-! ## The bounce counter through one step -/

theorem ballClamp_num_bounces (dt : ℚ) (s : State) :
    s.num_bounces ≤ (ballClamp dt s).num_bounces ∧
      (ballClamp dt s).num_bounces ≤ s.num_bounces + 1 := by
  simp only [ballClamp, ballWalls, ballVertical]
  split_ifs <;> simp

theorem collidePlayer1_num_bounces (d : Vec3) (s : State) :
    s.num_bounces ≤ (collidePlayer1 d s).num_bounces ∧
      (collidePlayer1 d s).num_bounces ≤ s.num_bounces + 1 := by
  simp only [collidePlayer1]
  split_ifs <;> simp

theorem collidePlayer2_num_bounces (d : Vec3) (s : State) :
    s.num_bounces ≤ (collidePlayer2 d s).num_bounces ∧
      (collidePlayer2 d s).num_bounces ≤ s.num_bounces + 1 := by
  simp only [collidePlayer2]
  split_ifs <;> simp

theorem ballPlayers_num_bounces (s : State) :
    s.num_bounces ≤ (ballPlayers s).num_bounces ∧
      (ballPlayers s).num_bounces ≤ s.num_bounces + 2 := by
  have h1 := collidePlayer1_num_bounces (center_difference1 s) s
  have h2 := collidePlayer2_num_bounces (center_difference2 s)
    (collidePlayer1 (center_difference1 s) s)
  simp only [ballPlayers]
  omega

theorem ballNet_num_bounces (s : State) :
    (ballNet s).num_bounces = 5 ∨ (ballNet s).num_bounces = s.num_bounces := by
  simp only [ballNet]
  split_ifs <;> simp

theorem beforeCheck_num_bounces_nonneg (dt : ℚ) (s : State) (h : 0 ≤ s.num_bounces) :
    0 ≤ (beforeCheck dt s).num_bounces := by
  have h1 := (updatePlayer1_only dt s).num_bounces_p1
  have h2 := (updatePlayer2_only dt (updatePlayer1 dt s)).num_bounces_p2
  have h3 := ballClamp_num_bounces dt (updatePlayer2 dt (updatePlayer1 dt s))
  have h4 := ballPlayers_num_bounces (ballClamp dt (updatePlayer2 dt (updatePlayer1 dt s)))
  have h5 := ballNet_num_bounces
    (ballPlayers (ballClamp dt (updatePlayer2 dt (updatePlayer1 dt s))))
  simp only [beforeCheck, beforeNet]
  omega

theorem endPoint_num_bounces (s : State) : (endPoint s).num_bounces = 0 := by
  simp only [endPoint]
  split_ifs <;> rfl

theorem endPoint_new_level (s : State) : (endPoint s).new_level = true := by
  simp only [endPoint]
  split_ifs <;> rfl

theorem moveBall_num_bounces (dt : ℚ) (s : State) :
    (moveBall dt s).num_bounces = 0 ∨ (moveBall dt s).num_bounces = s.num_bounces := by
  simp only [moveBall]
  split_ifs <;> simp

theorem update_of_endsPoint (dt : ℚ) (s : State) (h : endsPoint dt s) :
    update dt s = endPoint (beforeCheck dt s) := by
  unfold endsPoint at h
  simp only [update, ge_iff_le, if_pos h]

theorem update_of_not_endsPoint (dt : ℚ) (s : State) (h : ¬ endsPoint dt s) :
    update dt s = moveBall dt (beforeCheck dt s) := by
  unfold endsPoint at h
  simp only [update, ge_iff_le, if_neg h]

/-! ## C1: the bounce counter -/

/-- Claim C1: from a Playing state whose bounce counter is at least 0 (in particular
in `[0, 5]`), for every elapsed time, the counter after one update step is in
`[0, 5]`; and whenever the counter is 5 or more at the end-of-point check of
the step, the step performs the reset: `new_level` is true and the counter is
0 afterwards. -/
theorem bounce_counter_in_range (dt : ℚ) (s : State) (h0 : 0 ≤ s.num_bounces) :
    (0 ≤ (update dt s).num_bounces ∧ (update dt s).num_bounces ≤ 5) ∧
      (5 ≤ (beforeCheck dt s).num_bounces →
        (update dt s).new_level = true ∧ (update dt s).num_bounces = 0) := by
  have hb := beforeCheck_num_bounces_nonneg dt s h0
  by_cases h : endsPoint dt s
  · rw [update_of_endsPoint dt s h, endPoint_num_bounces, endPoint_new_level]
    simp
  · rw [update_of_not_endsPoint dt s h]
    have hm := moveBall_num_bounces dt (beforeCheck dt s)
    unfold endsPoint at h
    refine ⟨?_, fun h' => absurd h' h⟩
    omega

/-- Witness of C1, at two frames of `pointCycle`.  From `beforeContact`
(counter 0) the frame of 1.1 s has a contact with player 1: the counter is 1 at
the check and after the step, and the point goes on.  From `beforePoint`
(counter 1) the frame of 0 s has a floor bounce (counter 2 at the net check)
and the net rule (counter 5 at the end-of-point check): the step resets, with
`new_level` true and the counter 0. -/
theorem bounce_counter_in_range_witness :
    (beforeContact.new_level = false ∧ beforeContact.num_bounces = 0 ∧
      (beforeCheck (11 / 10) beforeContact).num_bounces = 1 ∧
      (update (11 / 10) beforeContact).num_bounces = 1 ∧
      (update (11 / 10) beforeContact).new_level = false ∧
      (0 ≤ (update (11 / 10) beforeContact).num_bounces ∧
        (update (11 / 10) beforeContact).num_bounces ≤ 5)) ∧
    (beforePoint.new_level = false ∧ beforePoint.num_bounces = 1 ∧
      (beforeNet 0 beforePoint).num_bounces = 2 ∧
      5 ≤ (beforeCheck 0 beforePoint).num_bounces ∧
      (0 ≤ (update 0 beforePoint).num_bounces ∧ (update 0 beforePoint).num_bounces ≤ 5) ∧
      (update 0 beforePoint).new_level = true ∧ (update 0 beforePoint).num_bounces = 0) :=
  ⟨⟨by decide!, by decide!, by decide!, by decide!, by decide!,
      (bounce_counter_in_range (11 / 10) beforeContact (by decide!)).1⟩,
    ⟨by decide!, by decide!, by decide!, by decide!,
      (bounce_counter_in_range 0 beforePoint (by decide!)).1,
      (bounce_counter_in_range 0 beforePoint (by decide!)).2 (by decide!)⟩⟩

/-! ## Clamps, collisions and the net: auxiliary lemmas -/

theorem player1Clamp_range (s : State) :
    -2 / 5 ≤ (player1Clamp s).player1_position.y ∧
      (player1Clamp s).player1_position.y ≤ 77 / 10 := by
  simp only [player1Clamp]
  split_ifs with h1 h2 h3 <;> simp only [] at * <;> constructor <;> linarith

theorem player2Clamp_range (s : State) :
    -11 ≤ (player2Clamp s).player2_position.y ∧ (player2Clamp s).player2_position.y ≤ -3 := by
  simp only [player2Clamp]
  split_ifs with h1 h2 h3 <;> simp only [] at * <;> constructor <;> linarith

theorem ballVertical_position_y (dt : ℚ) (s : State) :
    (ballVertical dt s).ball_position.y = s.ball_position.y := by
  simp only [ballVertical]
  split_ifs <;> rfl

theorem ballVertical_position_z (dt : ℚ) (s : State) :
    2 / 5 ≤ (ballVertical dt s).ball_position.z ∧ (ballVertical dt s).ball_position.z ≤ 5 ∧
      (s.ball_position.z ≤ 5 → 2 / 5 ≤ s.ball_position.z →
        (ballVertical dt s).ball_position.z = s.ball_position.z) ∧
      (s.ball_position.z ≤ 16 / 5 → (ballVertical dt s).ball_position.z ≤ 16 / 5) := by
  simp only [ballVertical]
  split_ifs with h1 h2 h3 <;> simp only [] at * <;>
    refine ⟨?_, ?_, ?_, ?_⟩ <;> intros <;> first | trivial | rfl | linarith

theorem ballWalls_position_z (s : State) :
    (ballWalls s).ball_position.z = s.ball_position.z := by
  simp only [ballWalls]
  split_ifs <;> rfl

theorem ballWalls_position_y (s : State) :
    -57 / 5 ≤ (ballWalls s).ball_position.y ∧ (ballWalls s).ball_position.y ≤ 81 / 10 ∧
      (-57 / 5 ≤ s.ball_position.y → s.ball_position.y ≤ 81 / 10 →
        (ballWalls s).ball_position.y = s.ball_position.y) := by
  simp only [ballWalls]
  split_ifs with h1 h2 h3 <;> simp only [] at * <;>
    refine ⟨?_, ?_, ?_⟩ <;> intros <;> first | trivial | rfl | linarith

/-- A collision with player 1, whose lateral position is at least -0.4, keeps a
ball of the net footprint laterally inside it. -/
theorem collidePlayer1_footprint (t : State)
    (hp : -2 / 5 ≤ t.player1_position.y)
    (h1 : t.ball_position.y ≤ -13 / 10) (h2 : -21 / 10 ≤ t.ball_position.y) :
    (collidePlayer1 (center_difference1 t) t).ball_position.y ≤ -13 / 10 ∧
      -21 / 10 ≤ (collidePlayer1 (center_difference1 t) t).ball_position.y := by
  simp only [collidePlayer1, overlaps, center_difference1]
  split_ifs with c1 c2 c3 c4 c5 <;> simp only [] at * <;>
    first
    | (obtain ⟨a, b, -, -⟩ := c1; constructor <;> linarith)
    | (constructor <;> linarith)

/-- A collision with player 2, whose lateral position is at most -3.0, keeps a
ball of the net footprint laterally inside it; `yb` is the ball's lateral
position when the offset `d` was taken. -/
theorem collidePlayer2_footprint (d : Vec3) (yb : ℚ) (a : State)
    (hd : d.y = yb - a.player2_position.y)
    (hp : a.player2_position.y ≤ -3) (hb2 : -21 / 10 ≤ yb)
    (h1 : a.ball_position.y ≤ -13 / 10) (h2 : -21 / 10 ≤ a.ball_position.y) :
    (collidePlayer2 d a).ball_position.y ≤ -13 / 10 ∧
      -21 / 10 ≤ (collidePlayer2 d a).ball_position.y := by
  simp only [collidePlayer2, overlaps]
  split_ifs with c1 c2 c3 c4 c5 <;> simp only [] at * <;>
    first
    | (obtain ⟨a, b, -, -⟩ := c1; constructor <;> linarith)
    | (constructor <;> linarith)

theorem collidePlayer1_of_not_overlaps (d : Vec3) (s : State) (h : ¬ overlaps d) :
    collidePlayer1 d s = s := by
  simp only [collidePlayer1, if_neg h]

theorem collidePlayer2_of_not_overlaps (d : Vec3) (s : State) (h : ¬ overlaps d) :
    collidePlayer2 d s = s := by
  simp only [collidePlayer2, if_neg h]

theorem ballPlayers_of_not_overlaps (s : State) (h1 : ¬ overlaps (center_difference1 s))
    (h2 : ¬ overlaps (center_difference2 s)) : ballPlayers s = s := by
  simp only [ballPlayers]
  rw [collidePlayer1_of_not_overlaps _ _ h1, collidePlayer2_of_not_overlaps _ _ h2]

/-- The state on which the offsets to the paddles are taken (line 400). -/
theorem paddles_at_collision (dt : ℚ) (s : State) :
    (ballClamp dt (updatePlayer2 dt (updatePlayer1 dt s))).player1_position =
        (updatePlayer1 dt s).player1_position ∧
      (ballClamp dt (updatePlayer2 dt (updatePlayer1 dt s))).player2_position =
        (updatePlayer2 dt (updatePlayer1 dt s)).player2_position := by
  constructor
  · rw [(ballClamp_only dt _).player1_position_ball, (updatePlayer2_only dt _).player1_position_p2]
  · rw [(ballClamp_only dt _).player2_position_ball]

theorem updatePlayer1_range (dt : ℚ) (s : State) :
    -2 / 5 ≤ (updatePlayer1 dt s).player1_position.y ∧
      (updatePlayer1 dt s).player1_position.y ≤ 77 / 10 :=
  player1Clamp_range _

theorem updatePlayer2_range (dt : ℚ) (s : State) :
    -11 ≤ (updatePlayer2 dt s).player2_position.y ∧
      (updatePlayer2 dt s).player2_position.y ≤ -3 :=
  player2Clamp_range _

theorem ball_after_paddles (dt : ℚ) (s : State) :
    (updatePlayer2 dt (updatePlayer1 dt s)).ball_position = s.ball_position := by
  rw [(updatePlayer2_only dt _).ball_position_p2, (updatePlayer1_only dt _).ball_position_p1]

theorem beforeNet_footprint_y (dt : ℚ) (s : State)
    (h1 : s.ball_position.y ≤ -13 / 10) (h2 : -21 / 10 ≤ s.ball_position.y) :
    (beforeNet dt s).ball_position.y ≤ -13 / 10 ∧
      -21 / 10 ≤ (beforeNet dt s).ball_position.y := by
  unfold beforeNet
  have hb := ball_after_paddles dt s
  obtain ⟨hp1, hp2⟩ := paddles_at_collision dt s
  have r1 := (updatePlayer1_range dt s).1
  have r2 := (updatePlayer2_range dt (updatePlayer1 dt s)).2
  generalize updatePlayer2 dt (updatePlayer1 dt s) = s2 at *
  have hy : (ballClamp dt s2).ball_position.y = s.ball_position.y := by
    have hw := (ballWalls_position_y (ballVertical dt s2)).2.2
    rw [ballVertical_position_y, hb] at hw
    exact hw (by linarith) (by linarith)
  generalize ballClamp dt s2 = t at *
  rw [← hp1] at r1
  rw [← hp2] at r2
  have c1 := collidePlayer1_footprint t r1 (by linarith) (by linarith)
  have c2 := collidePlayer2_footprint (center_difference2 t) t.ball_position.y
    (collidePlayer1 (center_difference1 t) t)
    (by rw [(collidePlayer1_only _ t).player2_position_ball]; rfl)
    (by rw [(collidePlayer1_only _ t).player2_position_ball]; exact r2)
    (by linarith) c1.1 c1.2
  exact c2


theorem beforeNet_no_contact (dt : ℚ) (s : State)
    (h1 : s.ball_position.y ≤ -7 / 5) (h2 : -2 ≤ s.ball_position.y) :
    (beforeNet dt s).ball_position.z =
      (ballClamp dt (updatePlayer2 dt (updatePlayer1 dt s))).ball_position.z := by
  unfold beforeNet
  have hb := ball_after_paddles dt s
  obtain ⟨hp1, hp2⟩ := paddles_at_collision dt s
  have r1 := (updatePlayer1_range dt s).1
  have r2 := (updatePlayer2_range dt (updatePlayer1 dt s)).2
  generalize updatePlayer2 dt (updatePlayer1 dt s) = s2 at *
  have hy : (ballClamp dt s2).ball_position.y = s.ball_position.y := by
    have hw := (ballWalls_position_y (ballVertical dt s2)).2.2
    rw [ballVertical_position_y, hb] at hw
    exact hw (by linarith) (by linarith)
  generalize ballClamp dt s2 = t at *
  rw [← hp1] at r1
  rw [← hp2] at r2
  rw [ballPlayers_of_not_overlaps]
  · simp only [overlaps, center_difference1]
    intro h
    linarith [h.1]
  · simp only [overlaps, center_difference2]
    intro h
    linarith [h.2.1]

theorem ballClamp_position_z_le (dt : ℚ) (s : State) (h : s.ball_position.z ≤ 16 / 5) :
    (ballClamp dt s).ball_position.z ≤ 16 / 5 := by
  unfold ballClamp
  rw [ballWalls_position_z]
  exact (ballVertical_position_z dt s).2.2.2 h

theorem ballNet_of_footprint (s : State) (h : inNetFootprint s.ball_position) :
    (ballNet s).num_bounces = 5 := by
  unfold inNetFootprint at h
  simp only [ballNet, if_pos h]

theorem beforeCheck_eq (dt : ℚ) (s : State) : beforeCheck dt s = ballNet (beforeNet dt s) := rfl

theorem endPoint_scores (s : State) :
    (s.player1_getting_point = true →
      (endPoint s).player1_score = s.player1_score + 1 ∧
        (endPoint s).player2_score = s.player2_score ∧
        (endPoint s).ball_velocity = ⟨0, -5, 0⟩) ∧
    (s.player1_getting_point = false →
      (endPoint s).player1_score = s.player1_score ∧
        (endPoint s).player2_score = s.player2_score + 1 ∧
        (endPoint s).ball_velocity = ⟨0, 5, 0⟩) := by
  simp only [endPoint]
  split_ifs <;> simp_all

theorem endPoint_ball_position (s : State) : (endPoint s).ball_position = ⟨0, -17 / 10, 5⟩ := by
  simp only [endPoint]
  split_ifs <;> rfl

/-- What a step that ends the point does to the match state. -/
theorem update_endsPoint (dt : ℚ) (s : State) (h : endsPoint dt s) :
    (update dt s).new_level = true ∧ (update dt s).num_bounces = 0 ∧
      (update dt s).ball_position = ⟨0, -17 / 10, 5⟩ ∧
      (s.player1_getting_point = true →
        (update dt s).player1_score = s.player1_score + 1 ∧
          (update dt s).player2_score = s.player2_score ∧
          (update dt s).ball_velocity = ⟨0, -5, 0⟩) ∧
      (s.player1_getting_point = false →
        (update dt s).player1_score = s.player1_score ∧
          (update dt s).player2_score = s.player2_score + 1 ∧
          (update dt s).ball_velocity = ⟨0, 5, 0⟩) := by
  have hp := beforeCheck_physics dt s
  have hs := endPoint_scores (beforeCheck dt s)
  rw [hp.player1_getting_point, hp.player1_score, hp.player2_score] at hs
  rw [update_of_endsPoint dt s h]
  exact ⟨endPoint_new_level _, endPoint_num_bounces _, endPoint_ball_position _, hs⟩

theorem pointAwarded_of_endsPoint (dt : ℚ) (s : State) (h : endsPoint dt s) :
    pointAwarded s (update dt s) := by
  obtain ⟨-, -, -, h1, h2⟩ := update_endsPoint dt s h
  unfold pointAwarded
  cases hg : s.player1_getting_point
  · exact Or.inr ⟨(h2 hg).1, (h2 hg).2.1⟩
  · exact Or.inl ⟨(h1 hg).1, (h1 hg).2.1⟩

/-! ## C2: the net rule -/

/-- Counterexample to C2 as stated: the ball is inside the net footprint at the
start of the step, player 1 touches it from below (top collision), the ball is
put at height 3.25 and the step does not end the point. -/
theorem net_ends_point_counterexample :
    netTopContact.new_level = false ∧ inNetFootprint netTopContact.ball_position ∧
      (0 : ℚ) ≤ 0 ∧
      (update 0 netTopContact).new_level = false ∧
      (update 0 netTopContact).num_bounces = 1 ∧
      (update 0 netTopContact).ball_position.z = 13 / 4 ∧
      (update 0 netTopContact).player1_score = netTopContact.player1_score ∧
      (update 0 netTopContact).player2_score = netTopContact.player2_score := by
  decide!

/-- Claim C2, amended: if the ball is inside the net footprint at the start of
the update step and its height is still at most 3.2 at the net check (after
the paddle collisions of the step), or its lateral position is in
`[-2.0, -1.4]` where no paddle reaches it, then for every bounce counter, every
paddle placement and every elapsed time the step ends the point: `new_level`
becomes true, the counter is 0 and one score has increased by 1. -/
theorem net_ends_point (dt : ℚ) (s : State) (hf : inNetFootprint s.ball_position)
    (hz : (beforeNet dt s).ball_position.z ≤ 16 / 5 ∨
      (-2 ≤ s.ball_position.y ∧ s.ball_position.y ≤ -7 / 5)) :
    (update dt s).new_level = true ∧ (update dt s).num_bounces = 0 ∧
      pointAwarded s (update dt s) := by
  have hz' : (beforeNet dt s).ball_position.z ≤ 16 / 5 := by
    rcases hz with hz | ⟨h1, h2⟩
    · exact hz
    · rw [beforeNet_no_contact dt s h2 h1]
      apply ballClamp_position_z_le
      rw [ball_after_paddles]
      exact hf.1
  have hy := beforeNet_footprint_y dt s hf.2.1 hf.2.2
  have he : endsPoint dt s := by
    unfold endsPoint
    rw [beforeCheck_eq, ballNet_of_footprint _ ⟨hz', hy.1, hy.2⟩]
  obtain ⟨h1, h2, -⟩ := update_endsPoint dt s he
  exact ⟨h1, h2, pointAwarded_of_endsPoint dt s he⟩

/-- Witness of C2: the scenario of the specification (counter 4, ball at
height 3.0 and lateral position -1.7). -/
theorem net_ends_point_witness :
    inNetFootprint netScenario.ball_position ∧ netScenario.num_bounces = 4 ∧
      (-2 ≤ netScenario.ball_position.y ∧ netScenario.ball_position.y ≤ -7 / 5) ∧
      (update (1 / 10) netScenario).new_level = true ∧
      (update (1 / 10) netScenario).num_bounces = 0 ∧
      pointAwarded netScenario (update (1 / 10) netScenario) :=
  ⟨by decide!, by decide!, by decide!,
    net_ends_point (1 / 10) netScenario (by decide!) (Or.inr (by decide!))⟩



/-! ## C3: the point award -/

/-- Claim C3: when an update step ends the point, player 1's score increases by
exactly 1 and player 2's is unchanged if `player1_getting_point` was true at
the start of the step, otherwise player 2's increases by exactly 1 and player
1's is unchanged; the ball is relaunched with velocity `(0, -5, 0)` after a
player 1 point, which points from the ball toward every lateral position of
player 2's range `[-11.0, -3.0]`, and with `(0, 5, 0)` after a player 2 point,
which points toward every position of player 1's range `[-0.4, 7.7]`. -/
theorem point_award (dt : ℚ) (s : State) (h : endsPoint dt s) :
    (s.player1_getting_point = true →
      (update dt s).player1_score = s.player1_score + 1 ∧
        (update dt s).player2_score = s.player2_score ∧
        (update dt s).ball_velocity = ⟨0, -5, 0⟩ ∧
        ∀ y : ℚ, -11 ≤ y → y ≤ -3 →
          0 < (y - (update dt s).ball_position.y) * (update dt s).ball_velocity.y) ∧
    (s.player1_getting_point = false →
      (update dt s).player1_score = s.player1_score ∧
        (update dt s).player2_score = s.player2_score + 1 ∧
        (update dt s).ball_velocity = ⟨0, 5, 0⟩ ∧
        ∀ y : ℚ, -2 / 5 ≤ y → y ≤ 77 / 10 →
          0 < (y - (update dt s).ball_position.y) * (update dt s).ball_velocity.y) := by
  obtain ⟨-, -, hb, h1, h2⟩ := update_endsPoint dt s h
  constructor
  · intro hg
    obtain ⟨a, b, c⟩ := h1 hg
    refine ⟨a, b, c, fun y _ hy => ?_⟩
    rw [hb, c]
    simp only []
    nlinarith
  · intro hg
    obtain ⟨a, b, c⟩ := h2 hg
    refine ⟨a, b, c, fun y hy _ => ?_⟩
    rw [hb, c]
    simp only []
    nlinarith


/-- Witness of C3: the frame that ends the first point of `pointCycle`. -/
theorem point_award_witness :
    endsPoint 0 beforePoint ∧ beforePoint.player1_getting_point = false ∧
      (update 0 beforePoint).player1_score = beforePoint.player1_score ∧
      (update 0 beforePoint).player2_score = beforePoint.player2_score + 1 ∧
      (update 0 beforePoint).ball_velocity = ⟨0, 5, 0⟩ :=
  ⟨by decide!, by decide!,
    ((point_award 0 beforePoint (by decide!)).2 (by decide!)).1,
    ((point_award 0 beforePoint (by decide!)).2 (by decide!)).2.1,
    ((point_award 0 beforePoint (by decide!)).2 (by decide!)).2.2.1⟩

/-! ## Scores and game over: auxiliary lemmas -/

theorem endPoint_scoreInv (s : State) (h : ScoreInv s) (hg : s.game_over = false) :
    ScoreInv (endPoint s) := by
  obtain ⟨⟨a1, a2⟩, ⟨b1, b2⟩, hiff, -⟩ := h
  have hne : ¬ (s.player1_score = 10 ∨ s.player2_score = 10) := by
    rw [← hiff, hg]
    simp
  have n1 : s.player1_score ≠ 10 := fun h => hne (Or.inl h)
  have n2 : s.player2_score ≠ 10 := fun h => hne (Or.inr h)
  simp only [endPoint, ScoreInv]
  split_ifs with c1 c2 c3 <;> simp only [] at * <;> simp [hg, n1, n2, *] <;> omega

theorem moveBall_match (dt : ℚ) (s : State) :
    (moveBall dt s).player1_score = s.player1_score ∧
      (moveBall dt s).player2_score = s.player2_score ∧
      (moveBall dt s).game_over = s.game_over ∧
      (moveBall dt s).new_level = s.new_level ∧
      (moveBall dt s).should_quit = s.should_quit := by
  simp only [moveBall]
  split_ifs <;> exact ⟨rfl, rfl, rfl, rfl, rfl⟩

theorem ScoreInv.congr {s t : State} (h : ScoreInv s)
    (h1 : t.player1_score = s.player1_score) (h2 : t.player2_score = s.player2_score)
    (h3 : t.game_over = s.game_over) (h4 : s.game_over = true → t.new_level = true) :
    ScoreInv t := by
  unfold ScoreInv at *
  rw [h1, h2, h3]
  exact ⟨h.1, h.2.1, h.2.2.1, h4⟩

theorem update_scoreInv (dt : ℚ) (s : State) (h : ScoreInv s) (hn : s.new_level = false) :
    ScoreInv (update dt s) := by
  have hg : s.game_over = false := by
    cases hgo : s.game_over
    · rfl
    · have := h.2.2.2 hgo
      rw [hn] at this
      cases this
  have hp := beforeCheck_physics dt s
  have hb : ScoreInv (beforeCheck dt s) :=
    h.congr hp.player1_score hp.player2_score hp.game_over (by rw [hg]; intro h; cases h)
  by_cases he : endsPoint dt s
  · rw [update_of_endsPoint dt s he]
    exact endPoint_scoreInv _ hb (by rw [hp.game_over, hg])
  · rw [update_of_not_endsPoint dt s he]
    obtain ⟨m1, m2, m3, m4, -⟩ := moveBall_match dt (beforeCheck dt s)
    exact hb.congr m1 m2 m3 (by rw [hp.game_over, hg]; intro h; cases h)

theorem handleKey_match (sym : Keycode) (pressed : Bool) (s : State) :
    (handleKey sym pressed s).player1_score = s.player1_score ∧
      (handleKey sym pressed s).player2_score = s.player2_score ∧
      (handleKey sym pressed s).game_over = s.game_over ∧
      (handleKey sym pressed s).new_level = s.new_level ∧
      (handleKey sym pressed s).player1_position = s.player1_position ∧
      (handleKey sym pressed s).player2_position = s.player2_position ∧
      (handleKey sym pressed s).ball_position = s.ball_position := by
  cases sym <;> simp only [handleKey] <;> split_ifs <;> simp only [and_self]

theorem handleEvent_match (evt : Event) (s : State) :
    (handleEvent evt s).player1_score = s.player1_score ∧
      (handleEvent evt s).player2_score = s.player2_score ∧
      (handleEvent evt s).game_over = s.game_over ∧
      (s.game_over = true → (handleEvent evt s).new_level = s.new_level) ∧
      (handleEvent evt s).player1_position = s.player1_position ∧
      (handleEvent evt s).player2_position = s.player2_position ∧
      (handleEvent evt s).ball_position = s.ball_position := by
  cases evt with
  | keydown sym =>
    cases sym <;>
      first
      | exact ⟨rfl, rfl, rfl, fun _ => rfl, rfl, rfl, rfl⟩
      | (obtain ⟨h1, h2, h3, h4, h5, h6, h7⟩ := handleKey_match _ true s
         exact ⟨h1, h2, h3, fun _ => h4, h5, h6, h7⟩)
  | keyup sym =>
    obtain ⟨h1, h2, h3, h4, h5, h6, h7⟩ := handleKey_match sym false s
    exact ⟨h1, h2, h3, fun _ => h4, h5, h6, h7⟩
  | quit => exact ⟨rfl, rfl, rfl, fun _ => rfl, rfl, rfl, rfl⟩
  | mousebuttondown =>
    simp only [handleEvent]
    split_ifs with h
    · exact ⟨rfl, rfl, rfl, fun _ => rfl, rfl, rfl, rfl⟩
    · exact ⟨rfl, rfl, rfl, fun h' => absurd h' h, rfl, rfl, rfl⟩
  | other => exact ⟨rfl, rfl, rfl, fun _ => rfl, rfl, rfl, rfl⟩


theorem step_scoreInv (s : State) (a : Action) (h : ScoreInv s) : ScoreInv (step s a) := by
  cases a with
  | input evt =>
    obtain ⟨h1, h2, h3, h4, -⟩ := handleEvent_match evt s
    exact h.congr h1 h2 h3 (fun hg => (h4 hg).trans (h.2.2.2 hg))
  | tick dt =>
    simp only [step]
    split_ifs with hq hn
    · exact h
    · exact update_scoreInv dt s h (by simpa using hn)
    · exact h

theorem initial_scoreInv : ScoreInv initial := by
  unfold ScoreInv initial
  simp

theorem run_scoreInv (actions : List Action) :
    ∀ s, ScoreInv s → ScoreInv (run s actions) := by
  induction actions with
  | nil => exact fun s h => h
  | cons a rest ih => exact fun s h => ih (step s a) (step_scoreInv s a h)

theorem step_frozen (s t : State) (a : Action) (h : Frozen s t) : Frozen s (step t a) := by
  obtain ⟨h1, h2, h3, h4, h5, h6, h7⟩ := h
  cases a with
  | input evt =>
    obtain ⟨e1, e2, e3, e4, e5, e6, e7⟩ := handleEvent_match evt t
    exact ⟨e1.trans h1, e2.trans h2, (e4 h4).trans h3, e3.trans h4, e5.trans h5,
      e6.trans h6, e7.trans h7⟩
  | tick dt =>
    have hstep : step t (.tick dt) = t := by simp [step, h3]
    rw [hstep]
    exact ⟨h1, h2, h3, h4, h5, h6, h7⟩

theorem run_frozen (actions : List Action) (s : State) :
    ∀ t, Frozen s t → Frozen s (run t actions) := by
  induction actions with
  | nil => exact fun t h => h
  | cons a rest ih => exact fun t h => ih (step t a) (step_frozen s t a h)

/-! ## C4: scores and the terminal game-over state -/

/-- Claim C4: in every state reached from the initial state by any sequence of
input events and update steps (any elapsed times), both scores lie in `0..10`
and `game_over` holds exactly when one of the scores is 10; and once
`game_over` holds, no later sequence of events and update steps changes either
score, clears `new_level` or `game_over`, or moves a paddle or the ball. -/
theorem game_over_terminal (actions : List Action) :
    ((0 ≤ (run initial actions).player1_score ∧ (run initial actions).player1_score ≤ 10) ∧
      (0 ≤ (run initial actions).player2_score ∧ (run initial actions).player2_score ≤ 10)) ∧
    ((run initial actions).game_over = true ↔
      ((run initial actions).player1_score = 10 ∨ (run initial actions).player2_score = 10)) ∧
    ((run initial actions).game_over = true →
      ∀ later : List Action,
        Frozen (run initial actions) (run (run initial actions) later)) := by
  obtain ⟨h1, h2, h3, h4⟩ := run_scoreInv actions initial initial_scoreInv
  refine ⟨⟨h1, h2⟩, h3, fun hg later => ?_⟩
  exact run_frozen later _ _ ⟨rfl, rfl, h4 hg, hg, rfl, rfl, rfl⟩

/-- Witness of C4: ten points in a row for player 2 end the game, and a later
click, key press and update step change nothing. -/
theorem game_over_terminal_witness :
    (run initial tenPoints).game_over = true ∧ (run initial tenPoints).player2_score = 10 ∧
      Frozen (run initial tenPoints)
        (run (run initial tenPoints)
          [.input .mousebuttondown, .input (.keydown .a), .tick (1 / 60)]) :=
  ⟨by decide!, by decide!,
    (game_over_terminal tenPoints).2.2 (by decide!)
      [.input .mousebuttondown, .input (.keydown .a), .tick (1 / 60)]⟩

/-! ## Paddle ranges: auxiliary lemmas -/

theorem endPoint_paddles (s : State) :
    (endPoint s).player1_position.y = 3 ∧ (endPoint s).player2_position.y = -6 := by
  simp only [endPoint]
  split_ifs <;> exact ⟨rfl, rfl⟩

theorem moveBall_paddles (dt : ℚ) (s : State) :
    (moveBall dt s).player1_position = s.player1_position ∧
      (moveBall dt s).player2_position = s.player2_position ∧
      (moveBall dt s).player1_velocity = s.player1_velocity ∧
      (moveBall dt s).player2_velocity = s.player2_velocity := by
  simp only [moveBall]
  split_ifs <;> exact ⟨rfl, rfl, rfl, rfl⟩

theorem beforeCheck_paddles (dt : ℚ) (s : State) :
    (beforeCheck dt s).player1_position = (updatePlayer1 dt s).player1_position ∧
      (beforeCheck dt s).player2_position =
        (updatePlayer2 dt (updatePlayer1 dt s)).player2_position := by
  unfold beforeCheck beforeNet
  rw [(ballBlocks_only dt _).player1_position_ball, (ballBlocks_only dt _).player2_position_ball,
    (updatePlayer2_only dt _).player1_position_p2]
  exact ⟨rfl, rfl⟩

theorem update_lateralInRange (dt : ℚ) (s : State) : lateralInRange (update dt s) := by
  unfold lateralInRange
  by_cases he : endsPoint dt s
  · rw [update_of_endsPoint dt s he, (endPoint_paddles _).1, (endPoint_paddles _).2]
    norm_num
  · obtain ⟨m1, m2, -, -⟩ := moveBall_paddles dt (beforeCheck dt s)
    obtain ⟨b1, b2⟩ := beforeCheck_paddles dt s
    rw [update_of_not_endsPoint dt s he, m1, m2, b1, b2]
    exact ⟨updatePlayer1_range dt s, updatePlayer2_range dt _⟩

theorem step_lateralInRange (s : State) (a : Action) (h : lateralInRange s) :
    lateralInRange (step s a) := by
  cases a with
  | input evt =>
    obtain ⟨-, -, -, -, e5, e6, -⟩ := handleEvent_match evt s
    show lateralInRange (handleEvent evt s)
    unfold lateralInRange at *
    rw [e5, e6]
    exact h
  | tick dt =>
    simp only [step]
    split_ifs
    · exact h
    · exact update_lateralInRange dt s
    · exact h

theorem run_lateralInRange (actions : List Action) :
    ∀ s, lateralInRange s → lateralInRange (run s actions) := by
  induction actions with
  | nil => exact fun s h => h
  | cons a rest ih => exact fun s h => ih (step s a) (step_lateralInRange s a h)

theorem player1_scenario_move (s : State) (hy : s.player1_position.y = -2 / 5)
    (hl : s.player1_left = true) :
    (player1Integrate (1 / 10) (player1Lateral (player1Vertical (1 / 10) s))).player1_velocity.y
        = 4 ∧
      (player1Integrate (1 / 10) (player1Lateral (player1Vertical (1 / 10) s))).player1_position.y
        = 0 := by
  simp only [player1Integrate, player1Lateral, player1Vertical]
  split_ifs <;> simp_all <;> norm_num

theorem Player2Only.player1_velocity_p2 {s t : State} (h : Player2Only s t) :
    t.player1_velocity = s.player1_velocity := by
  obtain ⟨p, v, j, rfl⟩ := h
  rfl

theorem BallOnly.player1_velocity_ball {s t : State} (h : BallOnly s t) :
    t.player1_velocity = s.player1_velocity := by
  obtain ⟨p, v, n, rfl⟩ := h
  rfl

theorem player1Clamp_of_inside (s : State) (h1 : ¬ s.player1_position.y ≤ -2 / 5)
    (h2 : ¬ s.player1_position.y ≥ 77 / 10) : player1Clamp s = s := by
  simp only [player1Clamp, if_neg h1, if_neg h2]

theorem update_player1_of_not_endsPoint (dt : ℚ) (s : State) (h : ¬ endsPoint dt s) :
    (update dt s).player1_position = (updatePlayer1 dt s).player1_position ∧
      (update dt s).player1_velocity = (updatePlayer1 dt s).player1_velocity := by
  rw [update_of_not_endsPoint dt s h]
  obtain ⟨m1, -, m3, -⟩ := moveBall_paddles dt (beforeCheck dt s)
  rw [m1, m3, (beforeCheck_paddles dt s).1]
  unfold beforeCheck beforeNet
  rw [(ballBlocks_only dt _).player1_velocity_ball, (updatePlayer2_only dt _).player1_velocity_p2]
  exact ⟨rfl, rfl⟩

/-! ## C5: lateral ranges of the paddles -/

/-- Claim C5: for every state, every elapsed time and every setting of the move
flags, after one update step (whether or not it ends the point) player 1's
lateral position is in `[-0.4, 7.7]` and player 2's in `[-11.0, -3.0]`, and
both ranges still hold after any later sequence of events and update steps.
Scenario: with player 1 at lateral position -0.4, the left flag set and
elapsed time 0.1, the move gives lateral velocity 4.0 and position 0.0, the
clamps leave the state as it is, and a step that does not end the point ends
with that velocity and position. -/
theorem paddles_stay_in_range :
    (∀ (dt : ℚ) (s : State) (later : List Action),
      lateralInRange (update dt s) ∧ lateralInRange (run (update dt s) later)) ∧
    (∀ s : State, s.player1_position.y = -2 / 5 → s.player1_left = true →
      (player1Integrate (1 / 10) (player1Lateral (player1Vertical (1 / 10) s))).player1_velocity.y
          = 4 ∧
        (player1Integrate (1 / 10)
          (player1Lateral (player1Vertical (1 / 10) s))).player1_position.y = 0 ∧
        player1Clamp (player1Integrate (1 / 10) (player1Lateral (player1Vertical (1 / 10) s))) =
          player1Integrate (1 / 10) (player1Lateral (player1Vertical (1 / 10) s)) ∧
        (¬ endsPoint (1 / 10) s →
          (update (1 / 10) s).player1_velocity.y = 4 ∧
            (update (1 / 10) s).player1_position.y = 0)) := by
  refine ⟨fun dt s later => ⟨update_lateralInRange dt s,
    run_lateralInRange later _ (update_lateralInRange dt s)⟩, fun s hy hl => ?_⟩
  obtain ⟨hv, hp⟩ := player1_scenario_move s hy hl
  have hc : player1Clamp (player1Integrate (1 / 10)
      (player1Lateral (player1Vertical (1 / 10) s))) =
      player1Integrate (1 / 10) (player1Lateral (player1Vertical (1 / 10) s)) := by
    apply player1Clamp_of_inside <;> rw [hp] <;> norm_num
  refine ⟨hv, hp, hc, fun he => ?_⟩
  obtain ⟨u1, u2⟩ := update_player1_of_not_endsPoint (1 / 10) s he
  rw [u1, u2]
  unfold updatePlayer1
  rw [hc]
  exact ⟨hv, hp⟩

/-- Witness of C5: the scenario state, where the step does not end the point. -/
theorem paddles_stay_in_range_witness :
    paddleScenario.player1_position.y = -2 / 5 ∧ paddleScenario.player1_left = true ∧
      ¬ endsPoint (1 / 10) paddleScenario ∧
      (update (1 / 10) paddleScenario).player1_velocity.y = 4 ∧
      (update (1 / 10) paddleScenario).player1_position.y = 0 :=
  ⟨by decide!, by decide!, by decide!,
    (paddles_stay_in_range.2 paddleScenario (by decide!) (by decide!)).2.2.2 (by decide!)⟩

/-! ## Court box: auxiliary lemmas -/

theorem ballClamp_inCourt (dt : ℚ) (s : State) : inCourt (ballClamp dt s).ball_position := by
  unfold inCourt ballClamp
  rw [ballWalls_position_z]
  exact ⟨⟨(ballVertical_position_z dt s).1, (ballVertical_position_z dt s).2.1⟩,
    ⟨(ballWalls_position_y _).1, (ballWalls_position_y _).2.1⟩⟩

theorem moveBall_position (dt : ℚ) (s : State) :
    (moveBall dt s).ball_position =
      ⟨s.ball_position.x, s.ball_position.y + s.ball_velocity.y * dt,
        s.ball_position.z + s.ball_velocity.z * dt⟩ := by
  simp only [moveBall]
  split_ifs <;> rfl

/-! ## C6: the court box of the ball -/

/-- Counterexample to C6 as stated: from the state right after the start click
(ball at height 5.0, lateral position -1.7, inside the box) a step of 2 s ends
with the ball at lateral position 8.3 and height -7, outside the box. -/
theorem ball_in_court_counterexample :
    started.new_level = false ∧ inCourt started.ball_position ∧ (0 : ℚ) ≤ 2 ∧
      (update 2 started).ball_position.y = 83 / 10 ∧
      (update 2 started).ball_position.z = -7 ∧
      ¬ inCourt (update 2 started).ball_position := by
  decide!

/-- Claim C6, amended: for every state and elapsed time, the ball is inside the
court box (height in `[0.4, 5.0]`, lateral position in `[-11.4, 8.1]`) right
after the cap/floor and wall clamps of the update step, and at the end of a
step that ends the point; a step that does not end the point ends with the
ball at its position at the net check plus velocity times elapsed time. -/
theorem ball_in_court_after_clamp (dt : ℚ) (s : State) :
    inCourt (ballClamp dt (updatePlayer2 dt (updatePlayer1 dt s))).ball_position ∧
      (endsPoint dt s → inCourt (update dt s).ball_position) ∧
      (¬ endsPoint dt s →
        (update dt s).ball_position.y =
            (beforeNet dt s).ball_position.y + (beforeNet dt s).ball_velocity.y * dt ∧
          (update dt s).ball_position.z =
            (beforeNet dt s).ball_position.z + (beforeNet dt s).ball_velocity.z * dt) := by
  refine ⟨ballClamp_inCourt dt _, fun he => ?_, fun he => ?_⟩
  · rw [(update_endsPoint dt s he).2.2.1]
    unfold inCourt
    norm_num
  · rw [update_of_not_endsPoint dt s he, moveBall_position, beforeCheck_eq]
    simp only [ballNet]
    split_ifs <;> exact ⟨rfl, rfl⟩

/-- Witness of C6: the step of the counterexample does not end the point. -/
theorem ball_in_court_after_clamp_witness :
    ¬ endsPoint 2 started ∧
      (update 2 started).ball_position.y =
        (beforeNet 2 started).ball_position.y + (beforeNet 2 started).ball_velocity.y * 2 ∧
      (update 2 started).ball_position.z =
        (beforeNet 2 started).ball_position.z + (beforeNet 2 started).ball_velocity.z * 2 :=
  ⟨by decide!, (ball_in_court_after_clamp 2 started).2.2 (by decide!)⟩

/-! ## Side classification: auxiliary lemmas -/

theorem specSide_isSome (dy dz : ℚ) : ∃ side, specSide dy dz = some side := by
  simp only [specSide, abs_le]
  split_ifs with h1 h2 h3 h4
  · exact ⟨_, rfl⟩
  · exact ⟨_, rfl⟩
  · exact ⟨_, rfl⟩
  · exact ⟨_, rfl⟩
  · exfalso
    rw [not_and_or] at h1 h2 h3 h4
    simp only [not_le, not_lt, not_and_or] at h1 h2 h3 h4
    rcases le_or_lt dy 0 with a | a <;> rcases le_or_lt dz 0 with b | b <;>
      rcases h1 with h1 | h1 | h1 <;> rcases h2 with h2 | h2 | h2 <;>
      rcases h3 with h3 | h3 | h3 <;> rcases h4 with h4 | h4 | h4 <;> linarith

theorem collidePlayer1_specSide (d : Vec3) (s : State) (side : Side) (h : overlaps d)
    (hs : specSide d.y d.z = some side) :
    collidePlayer1 d s = bounce side s.player1_position (countBounce s) := by
  simp only [specSide, abs_le] at hs
  simp only [collidePlayer1, if_pos h]
  split_ifs at hs with h1 h2 h3 h4 <;> cases hs
  · rw [if_pos ⟨h1.1, h1.2.2, by linarith [h1.2.1]⟩]
    rfl
  · rw [if_neg (fun c => h1 ⟨c.1, by linarith [c.2.2], c.2.1⟩),
      if_pos ⟨h2.1, h2.2.2, by linarith [h2.2.1]⟩]
    rfl
  · rw [if_neg (fun c => h1 ⟨c.1, by linarith [c.2.2], c.2.1⟩),
      if_neg (fun c => h2 ⟨c.1, by linarith [c.2.2], c.2.1⟩),
      if_pos ⟨h3.1, h3.2.2, by linarith [h3.2.1]⟩]
    rfl
  · rw [if_neg (fun c => h1 ⟨c.1, by linarith [c.2.2], c.2.1⟩),
      if_neg (fun c => h2 ⟨c.1, by linarith [c.2.2], c.2.1⟩),
      if_neg (fun c => h3 ⟨c.1, by linarith [c.2.2], c.2.1⟩),
      if_pos ⟨h4.1, h4.2.2, by linarith [h4.2.1]⟩]
    rfl

theorem collidePlayer2_specSide (d : Vec3) (s : State) (side : Side) (h : overlaps d)
    (hs : specSide d.y d.z = some side) :
    collidePlayer2 d s = bounce side s.player2_position (countBounce s) := by
  simp only [specSide, abs_le] at hs
  simp only [collidePlayer2, if_pos h]
  split_ifs at hs with h1 h2 h3 h4 <;> cases hs
  · rw [if_pos ⟨h1.1, h1.2.2, by linarith [h1.2.1]⟩]
    rfl
  · rw [if_neg (fun c => h1 ⟨c.1, by linarith [c.2.2], c.2.1⟩),
      if_pos ⟨h2.1, h2.2.2, by linarith [h2.2.1]⟩]
    rfl
  · rw [if_neg (fun c => h1 ⟨c.1, by linarith [c.2.2], c.2.1⟩),
      if_neg (fun c => h2 ⟨c.1, by linarith [c.2.2], c.2.1⟩),
      if_pos ⟨h3.1, h3.2.2, by linarith [h3.2.1]⟩]
    rfl
  · rw [if_neg (fun c => h1 ⟨c.1, by linarith [c.2.2], c.2.1⟩),
      if_neg (fun c => h2 ⟨c.1, by linarith [c.2.2], c.2.1⟩),
      if_neg (fun c => h3 ⟨c.1, by linarith [c.2.2], c.2.1⟩),
      if_pos ⟨h4.1, h4.2.2, by linarith [h4.2.1]⟩]
    rfl

/-! ## C7: the side of a paddle contact -/

/-- Claim C7: for every detected collision (both offsets strictly between -1
and 1) the resolution takes exactly one side branch, the first in the order
right, left, bottom, top whose diamond condition holds (`specSide`): the code
for player 1 and the code for player 2 both count the bounce and then run the
body of that branch.  The offset `(-0.5, 0.2)` and the tie `(0, 0)` are both
classified right. -/
theorem collision_takes_first_side :
    (∀ d : Vec3, overlaps d →
      ∃ side, specSide d.y d.z = some side ∧
        ∀ s : State,
          collidePlayer1 d s = bounce side s.player1_position (countBounce s) ∧
            collidePlayer2 d s = bounce side s.player2_position (countBounce s)) ∧
    specSide (-1 / 2) (1 / 5) = some Side.right ∧ specSide 0 0 = some Side.right := by
  refine ⟨fun d h => ?_, ?_, ?_⟩
  · obtain ⟨side, hs⟩ := specSide_isSome d.y d.z
    exact ⟨side, hs, fun s =>
      ⟨collidePlayer1_specSide d s side h hs, collidePlayer2_specSide d s side h hs⟩⟩
  · decide!
  · decide!

/-- Witness of C7: the offset `(-0.5, 0.2)` of the specification's scenario. -/
theorem collision_takes_first_side_witness :
    overlaps ⟨0, -1 / 2, 1 / 5⟩ ∧
      ∃ side, specSide (-1 / 2) (1 / 5) = some side ∧
        ∀ s : State,
          collidePlayer1 ⟨0, -1 / 2, 1 / 5⟩ s = bounce side s.player1_position (countBounce s) ∧
            collidePlayer2 ⟨0, -1 / 2, 1 / 5⟩ s =
              bounce side s.player2_position (countBounce s) :=
  ⟨by decide!, collision_takes_first_side.1 ⟨0, -1 / 2, 1 / 5⟩ (by decide!)⟩

/-! ## Elapsed time 0: auxiliary lemmas -/

theorem Vec3.eq_of (p q : Vec3) (hx : p.x = q.x) (hy : p.y = q.y) (hz : p.z = q.z) : p = q := by
  cases p
  cases q
  simp only [Vec3.mk.injEq]
  exact ⟨hx, hy, hz⟩

theorem player1_velocity_blocks_position (dt : ℚ) (s : State) :
    (player1Lateral (player1Vertical dt s)).player1_position = s.player1_position := by
  have h1 : (player1Vertical dt s).player1_position = s.player1_position := by
    simp only [player1Vertical]
    split_ifs <;> rfl
  have h2 : ∀ t : State, (player1Lateral t).player1_position = t.player1_position := by
    intro t
    simp only [player1Lateral]
    split_ifs <;> rfl
  rw [h2, h1]

theorem player2_velocity_blocks_position (dt : ℚ) (s : State) :
    (player2Lateral (player2Vertical dt s)).player2_position = s.player2_position := by
  have h1 : (player2Vertical dt s).player2_position = s.player2_position := by
    simp only [player2Vertical]
    split_ifs <;> rfl
  have h2 : ∀ t : State, (player2Lateral t).player2_position = t.player2_position := by
    intro t
    simp only [player2Lateral]
    split_ifs <;> rfl
  rw [h2, h1]

theorem player1Integrate_zero (s : State) :
    (player1Integrate 0 s).player1_position = s.player1_position := by
  simp only [player1Integrate, mul_zero, add_zero]

theorem player2Integrate_zero (s : State) :
    (player2Integrate 0 s).player2_position = s.player2_position := by
  simp only [player2Integrate, mul_zero, add_zero]

theorem player1Clamp_of_range (s : State) (h1 : -2 / 5 ≤ s.player1_position.y)
    (h2 : s.player1_position.y ≤ 77 / 10) :
    (player1Clamp s).player1_position = s.player1_position := by
  simp only [player1Clamp]
  apply Vec3.eq_of <;> split_ifs <;> simp only [] at * <;> first | rfl | linarith

theorem player2Clamp_of_range (s : State) (h1 : -11 ≤ s.player2_position.y)
    (h2 : s.player2_position.y ≤ -3) :
    (player2Clamp s).player2_position = s.player2_position := by
  simp only [player2Clamp]
  apply Vec3.eq_of <;> split_ifs <;> simp only [] at * <;> first | rfl | linarith

theorem updatePlayer1_zero (s : State) (h1 : -2 / 5 ≤ s.player1_position.y)
    (h2 : s.player1_position.y ≤ 77 / 10) :
    (updatePlayer1 0 s).player1_position = s.player1_position := by
  have e : (player1Integrate 0 (player1Lateral (player1Vertical 0 s))).player1_position =
      s.player1_position := by
    rw [player1Integrate_zero, player1_velocity_blocks_position]
  unfold updatePlayer1
  rw [player1Clamp_of_range _ (by rw [e]; exact h1) (by rw [e]; exact h2), e]

theorem updatePlayer2_zero (s : State) (h1 : -11 ≤ s.player2_position.y)
    (h2 : s.player2_position.y ≤ -3) :
    (updatePlayer2 0 s).player2_position = s.player2_position := by
  have e : (player2Integrate 0 (player2Lateral (player2Vertical 0 s))).player2_position =
      s.player2_position := by
    rw [player2Integrate_zero, player2_velocity_blocks_position]
  unfold updatePlayer2
  rw [player2Clamp_of_range _ (by rw [e]; exact h1) (by rw [e]; exact h2), e]

theorem ballVertical_of_height (dt : ℚ) (s : State) (h1 : 2 / 5 ≤ s.ball_position.z)
    (h2 : s.ball_position.z ≤ 5) :
    (ballVertical dt s).ball_position = s.ball_position ∧
      (ballVertical dt s).num_bounces = s.num_bounces := by
  simp only [ballVertical]
  constructor
  · apply Vec3.eq_of <;> split_ifs <;> simp only [] at * <;> first | rfl | linarith
  · split_ifs <;> first | rfl | (exfalso; simp only [] at *; linarith)

theorem ballWalls_of_lateral (s : State) (h1 : -57 / 5 ≤ s.ball_position.y)
    (h2 : s.ball_position.y ≤ 81 / 10) :
    (ballWalls s).ball_position = s.ball_position ∧
      (ballWalls s).num_bounces = s.num_bounces := by
  simp only [ballWalls]
  constructor
  · apply Vec3.eq_of <;> split_ifs <;> simp only [] at * <;> first | rfl | linarith
  · split_ifs <;> rfl

theorem ballClamp_of_inCourt (dt : ℚ) (s : State) (h : inCourt s.ball_position) :
    (ballClamp dt s).ball_position = s.ball_position ∧
      (ballClamp dt s).num_bounces = s.num_bounces := by
  obtain ⟨⟨h1, h2⟩, h3, h4⟩ := h
  obtain ⟨v1, v2⟩ := ballVertical_of_height dt s h1 h2
  obtain ⟨w1, w2⟩ := ballWalls_of_lateral (ballVertical dt s) (by rw [v1]; exact h3)
    (by rw [v1]; exact h4)
  unfold ballClamp
  exact ⟨w1.trans v1, w2.trans v2⟩

theorem ballNet_of_not_footprint (s : State) (h : ¬ inNetFootprint s.ball_position) :
    ballNet s = s := by
  unfold inNetFootprint at h
  simp only [ballNet, if_neg h]

theorem moveBall_zero (s : State) : (moveBall 0 s).ball_position = s.ball_position := by
  rw [moveBall_position]
  simp only [mul_zero, add_zero]

/-! ## C8: a step with elapsed time 0 -/

/-- Counterexample to C8 as stated: in the Playing state one frame before the
first point of `pointCycle` the ball is below the floor and inside the net's
lateral range; a step with elapsed time 0 ends the point and puts the ball
back at its start position. -/
theorem zero_step_counterexample :
    beforePoint.new_level = false ∧
      beforePoint.ball_position = ⟨0, -3 / 2, -589 / 100⟩ ∧
      (update 0 beforePoint).ball_position = ⟨0, -17 / 10, 5⟩ ∧
      (update 0 beforePoint).ball_position ≠ beforePoint.ball_position := by
  decide!

/-- Claim C8, amended: an update step with elapsed time 0 leaves the positions
of player 1, player 2 and the ball unchanged when, at the start of the step,
both paddles are inside their lateral ranges, the ball is inside the court
box, overlaps neither paddle and is outside the net footprint, and the bounce
counter is below 5 (no clamp, no collision snap and no reset applies). -/
theorem zero_step_keeps_positions (s : State) (hr : lateralInRange s)
    (hb : inCourt s.ball_position)
    (h1 : ¬ overlaps (center_difference1 s)) (h2 : ¬ overlaps (center_difference2 s))
    (hn : ¬ inNetFootprint s.ball_position) (hc : s.num_bounces < 5) :
    (update 0 s).player1_position = s.player1_position ∧
      (update 0 s).player2_position = s.player2_position ∧
      (update 0 s).ball_position = s.ball_position := by
  obtain ⟨⟨r1, r2⟩, r3, r4⟩ := hr
  have p1 : (updatePlayer1 0 s).player1_position = s.player1_position :=
    updatePlayer1_zero s r1 r2
  have p2 : (updatePlayer2 0 (updatePlayer1 0 s)).player2_position = s.player2_position := by
    have e := (updatePlayer1_only 0 s).player2_position_p1
    rw [updatePlayer2_zero _ (by rw [e]; exact r3) (by rw [e]; exact r4), e]
  have p1' : (updatePlayer2 0 (updatePlayer1 0 s)).player1_position = s.player1_position := by
    rw [(updatePlayer2_only 0 _).player1_position_p2, p1]
  have hball := ball_after_paddles 0 s
  have hnb : (updatePlayer2 0 (updatePlayer1 0 s)).num_bounces = s.num_bounces := by
    rw [(updatePlayer2_only 0 _).num_bounces_p2, (updatePlayer1_only 0 _).num_bounces_p1]
  obtain ⟨c1, c2⟩ := ballClamp_of_inCourt 0 (updatePlayer2 0 (updatePlayer1 0 s))
    (by rw [hball]; exact hb)
  have q1 := (ballClamp_only 0 (updatePlayer2 0 (updatePlayer1 0 s))).player1_position_ball
  have q2 := (ballClamp_only 0 (updatePlayer2 0 (updatePlayer1 0 s))).player2_position_ball
  rw [hball] at c1
  rw [hnb] at c2
  rw [p1'] at q1
  rw [p2] at q2
  have hT : beforeCheck 0 s = ballClamp 0 (updatePlayer2 0 (updatePlayer1 0 s)) := by
    unfold beforeCheck beforeNet
    rw [ballPlayers_of_not_overlaps, ballNet_of_not_footprint]
    · rw [c1]
      exact hn
    · have e : center_difference1 (ballClamp 0 (updatePlayer2 0 (updatePlayer1 0 s))) =
          center_difference1 s := by
        unfold center_difference1
        rw [c1, q1]
      rw [e]
      exact h1
    · have e : center_difference2 (ballClamp 0 (updatePlayer2 0 (updatePlayer1 0 s))) =
          center_difference2 s := by
        unfold center_difference2
        rw [c1, q2]
      rw [e]
      exact h2
  have he : ¬ endsPoint 0 s := by
    unfold endsPoint
    rw [hT, c2]
    exact not_le.mpr hc
  obtain ⟨m1, m2, -, -⟩ := moveBall_paddles 0 (beforeCheck 0 s)
  rw [update_of_not_endsPoint 0 s he, m1, m2, moveBall_zero, hT]
  exact ⟨q1, q2, c1⟩

/-- Witness of C8: the state right after the start click. -/
theorem zero_step_keeps_positions_witness :
    lateralInRange started ∧ inCourt started.ball_position ∧
      ¬ overlaps (center_difference1 started) ∧ ¬ overlaps (center_difference2 started) ∧
      ¬ inNetFootprint started.ball_position ∧ started.num_bounces < 5 ∧
      (update 0 started).player1_position = started.player1_position ∧
      (update 0 started).player2_position = started.player2_position ∧
      (update 0 started).ball_position = started.ball_position :=
  ⟨by decide!, by decide!, by decide!, by decide!, by decide!, by decide!,
    zero_step_keeps_positions started (by decide!) (by decide!) (by decide!) (by decide!)
      (by decide!) (by decide!)⟩

/-! ## C9: the resting height of the paddles -/

/-- Claim C9 fails on the code: in the reachable Playing state `beforeLanding`
both paddles are at height at least 0.6 (player 1 at 1.125 with vertical
velocity -2.0); the next update step with elapsed time 0.3 does not end the
point and leaves player 1 at height 0.3, below 0.6, and one more step leaves it
there: the landing branch zeroes the velocity but never corrects the height. -/
theorem paddle_sinks_below_rest :
    beforeLanding.new_level = false ∧
      beforeLanding.player1_position.z = 9 / 8 ∧ beforeLanding.player1_velocity.z = -2 ∧
      3 / 5 ≤ beforeLanding.player1_position.z ∧ 3 / 5 ≤ beforeLanding.player2_position.z ∧
      (0 : ℚ) ≤ 3 / 10 ∧ ¬ endsPoint (3 / 10) beforeLanding ∧
      (update (3 / 10) beforeLanding).player1_position.z = 3 / 10 ∧
      (update (3 / 10) beforeLanding).player1_position.z < 3 / 5 ∧
      ¬ endsPoint (3 / 10) (update (3 / 10) beforeLanding) ∧
      (update (3 / 10) (update (3 / 10) beforeLanding)).player1_position.z = 3 / 10 := by
  decide!

/-! ## C10: the lateral-move flags -/

/-- The key paths that do what C10 says: while Playing, a press of `a` sets
player 1's left flag and clears its right flag, a press of `d` sets its right
flag and clears its left flag, and a press of RIGHT sets player 2's right flag
and clears its left flag. -/
theorem lateral_keys_sound_paths (s : State) (h : s.new_level = false) :
    ((handleEvent (.keydown .a) s).player1_left = true ∧
      (handleEvent (.keydown .a) s).player1_right = false) ∧
    ((handleEvent (.keydown .d) s).player1_right = true ∧
      (handleEvent (.keydown .d) s).player1_left = false) ∧
    ((handleEvent (.keydown .RIGHT) s).player2_right = true ∧
      (handleEvent (.keydown .RIGHT) s).player2_left = false) := by
  simp [handleEvent, handleKey, h]

/-- After a press of LEFT while Playing, player 2's flags are still not both
set, and the left flag is set exactly when the right flag was clear. -/
theorem player2_left_press (s : State) (h : s.new_level = false) :
    (handleEvent (.keydown .LEFT) s).player2_right = s.player2_right ∧
      (handleEvent (.keydown .LEFT) s).player2_left = !s.player2_right := by
  cases hr : s.player2_right <;> simp [handleEvent, handleKey, h, hr]

/-- Claim C10 fails on the code for player 2's LEFT key: in the reachable
Playing state `rightHeld` (right flag set, left flag clear), a press of LEFT
leaves the left flag false and the right flag true, where the claim says left
true and right false.  Lines 299-301 test and clear the wrong flags; the
handler of player 1's `a` key (lines 283-286) clears the right flag. -/
theorem player2_left_press_keeps_right :
    rightHeld.new_level = false ∧ rightHeld.player2_right = true ∧
      rightHeld.player2_left = false ∧
      (handleEvent (.keydown .LEFT) rightHeld).player2_left = false ∧
      (handleEvent (.keydown .LEFT) rightHeld).player2_right = true := by
  decide!

/-! ## C11: both paddles in one step -/

/-- At the collision tests of an update step the paddles are inside their
lateral ranges, so the ball cannot be within 1.0 of both. -/
theorem not_both_overlap (dt : ℚ) (s : State) :
    ¬ (overlaps (center_difference1 (ballClamp dt (updatePlayer2 dt (updatePlayer1 dt s)))) ∧
      overlaps (center_difference2 (ballClamp dt (updatePlayer2 dt (updatePlayer1 dt s))))) := by
  obtain ⟨hp1, hp2⟩ := paddles_at_collision dt s
  have r1 := (updatePlayer1_range dt s).1
  have r2 := (updatePlayer2_range dt (updatePlayer1 dt s)).2
  rw [← hp1] at r1
  rw [← hp2] at r2
  rintro ⟨h1, h2⟩
  simp only [overlaps, center_difference1] at h1
  simp only [overlaps, center_difference2] at h2
  linarith [h1.1, h2.2.1]

/-- Paddle contacts raise the bounce counter by at most one in an update step. -/
theorem paddle_contacts_at_most_one (dt : ℚ) (s : State) :
    (beforeNet dt s).num_bounces ≤
      (ballClamp dt (updatePlayer2 dt (updatePlayer1 dt s))).num_bounces + 1 := by
  have hn := not_both_overlap dt s
  unfold beforeNet
  generalize ballClamp dt (updatePlayer2 dt (updatePlayer1 dt s)) = t at *
  simp only [ballPlayers]
  by_cases h1 : overlaps (center_difference1 t)
  · have h2 : ¬ overlaps (center_difference2 t) := fun h2 => hn ⟨h1, h2⟩
    rw [collidePlayer2_of_not_overlaps _ _ h2]
    exact (collidePlayer1_num_bounces _ t).2
  · rw [collidePlayer1_of_not_overlaps _ _ h1]
    exact (collidePlayer2_num_bounces _ t).2

/-- Counterexample to C11 as stated (its negation): there is no state and
elapsed time for which the collision tests of player 1 and of player 2 both
succeed in the same update step. -/
theorem double_resolution_counterexample :
    ¬ ∃ (s : State) (dt : ℚ),
      overlaps (center_difference1 (ballClamp dt (updatePlayer2 dt (updatePlayer1 dt s)))) ∧
        overlaps (center_difference2 (ballClamp dt (updatePlayer2 dt (updatePlayer1 dt s)))) := by
  rintro ⟨s, dt, h⟩
  exact not_both_overlap dt s h

/-- Claim C11, amended: double resolution is not possible in an update step.
For every state and every elapsed time, at most one of the two collision tests
succeeds (the lateral clamps, run earlier in the step, keep the paddles at
least 2.6 apart), so paddle contacts raise the bounce counter by at most one
in the step.  The collision block by itself does not prevent a double
resolution: applied to `bothPaddlesClose`, where both tests succeed, it raises
the counter by two; in an update step from that state player 2 is clamped to
-3.0 first and only player 1's test succeeds. -/
theorem double_resolution_excluded :
    (∀ (s : State) (dt : ℚ),
      ¬ (overlaps (center_difference1 (ballClamp dt (updatePlayer2 dt (updatePlayer1 dt s)))) ∧
        overlaps (center_difference2 (ballClamp dt (updatePlayer2 dt (updatePlayer1 dt s))))) ∧
      (beforeNet dt s).num_bounces ≤
        (ballClamp dt (updatePlayer2 dt (updatePlayer1 dt s))).num_bounces + 1) ∧
    (overlaps (center_difference1 bothPaddlesClose) ∧
      overlaps (center_difference2 bothPaddlesClose) ∧
      (ballPlayers bothPaddlesClose).num_bounces = bothPaddlesClose.num_bounces + 2) ∧
    (overlaps (center_difference1
        (ballClamp 0 (updatePlayer2 0 (updatePlayer1 0 bothPaddlesClose)))) ∧
      ¬ overlaps (center_difference2
        (ballClamp 0 (updatePlayer2 0 (updatePlayer1 0 bothPaddlesClose)))) ∧
      (beforeNet 0 bothPaddlesClose).num_bounces = bothPaddlesClose.num_bounces + 1) := by
  refine ⟨fun s dt => ⟨not_both_overlap dt s, paddle_contacts_at_most_one dt s⟩, ?_, ?_⟩
  · decide!
  · decide!

end Volleyball
